/-
Verification of the authentication-and-compute-dispatch core of the neon
proxy, as a shallow embedding of the two source files

  * src/proxy/src/auth/backend/console_redirect.rs
  * src/proxy/src/serverless/backend.rs

into Lean 4. Rust enums become inductive types, pure functions become Lean
functions, and the async entry points become pure functions from an explicit
environment (the outcomes of their external calls: registry wait, pool
lookup, TCP connect, SCRAM exchange, ...) to an event trace plus a result.
Payloads of external error types that the core never inspects are kept as
opaque strings.
-/
import Mathlib

namespace Neon

/-! ## Basic external types

Opaque stand-ins for collaborator types whose internals the core never
inspects: IP addresses, io errors, serde/h2/control-plane error payloads. -/

/-- Peer / allow-list addresses; the core only compares them via the
allow-list membership predicate. -/
abbrev IpAddr := String

/-- `std::io::ErrorKind`, restricted to the kinds the core constructs. -/
inductive IoErrorKind where
  | invalidInput
  | timedOut
  | other
deriving DecidableEq, Repr

/-- `std::io::Error`: a kind plus an opaque message. -/
structure IoError where
  kind : IoErrorKind
  msg : String
deriving DecidableEq, Repr

/-- Opaque payload of `serde_json::Error`. -/
structure SerdeJsonError where
  msg : String
deriving DecidableEq, Repr

/-- Opaque payload of `hyper::Error` (failed h2 handshake). -/
structure HyperError where
  msg : String
deriving DecidableEq, Repr

/-- Opaque payload of `waiters::RegisterError` (registry collision). -/
structure RegisterError where
  msg : String
deriving DecidableEq, Repr

/-- Opaque payload of `waiters::WaitError` (callback failure / cancel). -/
structure WaitError where
  msg : String
deriving DecidableEq, Repr

/-- Opaque payload of `control_plane::errors::GetAuthInfoError`. -/
structure GetAuthInfoError where
  msg : String
deriving DecidableEq, Repr

/-- `control_plane::errors::WakeComputeError`, restricted to the variant the
embedded code constructs plus an opaque catch-all. -/
inductive WakeComputeError where
  | badComputeAddress (msg : String)
  | other (msg : String)
deriving DecidableEq, Repr

/-- Opaque payload of `control_plane::provider::ApiLockError`
(per-host permit acquisition failure). -/
structure ApiLockError where
  msg : String
deriving DecidableEq, Repr

/-- Opaque payload of `tokio_postgres::Error`.  Its `CouldRetry` /
`ShouldRetryWakeCompute` impls live outside src/, so the two delegated
predicate values are carried as fields. -/
structure TokioPostgresError where
  msg : String
  couldRetryVal : Bool
  shouldRetryWakeComputeVal : Bool
deriving DecidableEq, Repr

/-- `crate::error::ErrorKind` (the reportable kinds the embedded code uses). -/
inductive ErrorKind where
  | clientDisconnect
  | user
  | service
  | compute
deriving DecidableEq, Repr

/-! ## Error types of `serverless/backend.rs` -/

/-- `LocalProxyConnError` (serverless/backend.rs lines 335-341). -/
inductive LocalProxyConnError where
  | io (e : IoError)
  | h2 (e : HyperError)
deriving DecidableEq, Repr

namespace LocalProxyConnError

/-- `impl CouldRetry for LocalProxyConnError` (lines 415-422). -/
def could_retry : LocalProxyConnError → Bool
  | .io _ => false
  | .h2 _ => false

/-- `impl ShouldRetryWakeCompute for LocalProxyConnError` (lines 423-430). -/
def should_retry_wake_compute : LocalProxyConnError → Bool
  | .io _ => false
  | .h2 _ => false

/-- `impl ReportableError for LocalProxyConnError` (lines 400-407). -/
def get_error_kind : LocalProxyConnError → ErrorKind
  | .io _ => .compute
  | .h2 _ => .compute

end LocalProxyConnError

/-- `WebAuthError` (console_redirect.rs lines 22-32). -/
inductive WebAuthError where
  | waiterRegister (e : RegisterError)
  | waiterWait (e : WaitError)
  | io (e : IoError)
deriving DecidableEq, Repr

namespace WebAuthError

/-- `impl ReportableError for WebAuthError` (console_redirect.rs lines 45-53). -/
def get_error_kind : WebAuthError → ErrorKind
  | .waiterRegister _ => .service
  | .waiterWait _ => .service
  | .io _ => .clientDisconnect

/-- `impl UserFacingError for WebAuthError` (console_redirect.rs lines 39-43). -/
def to_string_client : WebAuthError → String :=
  fun _ => "Internal error"

end WebAuthError

/-- `auth::AuthError`, restricted to the variants constructed by the embedded
code (its definition lives outside src/; each constructor below mirrors one
of the constructor functions the sources call:
`AuthError::confirmation_timeout`, `AuthError::ip_address_not_allowed`,
`AuthError::too_many_connections`, `AuthError::auth_failed`, the `From`
conversions for `WebAuthError` and `GetAuthInfoError`, and the backoff error
returned by `check_rate_limit`). Durations are modelled in milliseconds. -/
inductive AuthError where
  | confirmationTimeout (millis : Nat)
  | ipAddressNotAllowed (peer : IpAddr)
  | tooManyConnections
  | authFailed (user : String)
  | rateLimitBackoff
  | web (e : WebAuthError)
  | getAuthInfo (e : GetAuthInfoError)
  | other (msg : String)
deriving DecidableEq, Repr

/-- `HttpConnError` (serverless/backend.rs lines 314-333). The
`ConnectionClosedAbruptly` payload (a watch-channel send error carrying a
uuid) is kept opaque as a string. -/
inductive HttpConnError where
  | connectionClosedAbruptly (e : String)
  | postgresConnectionError (e : TokioPostgresError)
  | localProxyConnectionError (e : LocalProxyConnError)
  | jwtPayloadError (e : SerdeJsonError)
  | getAuthInfo (e : GetAuthInfoError)
  | authError (e : AuthError)
  | wakeCompute (e : WakeComputeError)
  | tooManyConnectionAttempts (e : ApiLockError)
deriving DecidableEq, Repr

namespace HttpConnError

/-- `impl CouldRetry for HttpConnError` (serverless/backend.rs lines 375-388).
The `PostgresConnectionError` and `LocalProxyConnectionError` arms delegate to
the payload's own `could_retry`. -/
def could_retry : HttpConnError → Bool
  | .postgresConnectionError e => e.couldRetryVal
  | .localProxyConnectionError e => e.could_retry
  | .connectionClosedAbruptly _ => false
  | .jwtPayloadError _ => false
  | .getAuthInfo _ => false
  | .authError _ => false
  | .wakeCompute _ => false
  | .tooManyConnectionAttempts _ => false

/-- `impl ShouldRetryWakeCompute for HttpConnError` (serverless/backend.rs
lines 389-398): `PostgresConnectionError` delegates,
`TooManyConnectionAttempts` is `false`, and the wildcard arm makes every
other variant `true`. -/
def should_retry_wake_compute : HttpConnError → Bool
  | .postgresConnectionError e => e.shouldRetryWakeComputeVal
  | .tooManyConnectionAttempts _ => false
  | _ => true

end HttpConnError

/-! ## Session-id minter (console_redirect.rs lines 67-69)

`new_psql_session_id` is `hex::encode(rand::random::<[u8; 8]>())`: the RNG is
external, so the embedded function takes the 8 random bytes as input and
performs the `hex::encode` rendering (lowercase hex, two digits per byte). -/

/-- Lowercase hex digit for a nibble (`0..=9 → '0'..'9'`, `10..=15 → 'a'..'f'`). -/
def hexDigit (n : Nat) : Char :=
  if n < 10 then Char.ofNat (48 + n) else Char.ofNat (97 + (n - 10))

/-- Two lowercase hex digits of one byte, most significant first. -/
def hexEncodeByte (b : Nat) : List Char :=
  [hexDigit (b / 16), hexDigit (b % 16)]

/-- `hex::encode`: lowercase hex rendering of a byte string. -/
def hex_encode (bytes : List Nat) : String :=
  ⟨(bytes.map hexEncodeByte).flatten⟩

/-- `new_psql_session_id` (console_redirect.rs lines 67-69), with the 8 bytes
produced by `rand::random::<[u8; 8]>()` passed in. -/
def new_psql_session_id (randomBytes : List Nat) : String :=
  hex_encode randomBytes

/-- Is `c` a lowercase hex digit (`[0-9a-f]`)? -/
def isLowerHexDigit (c : Char) : Bool :=
  (48 ≤ c.toNat && c.toNat ≤ 57) || (97 ≤ c.toNat && c.toNat ≤ 102)

/-- Inverse nibble value of a lowercase hex digit. -/
def hexVal (c : Char) : Nat :=
  if 48 ≤ c.toNat ∧ c.toNat ≤ 57 then c.toNat - 48
  else if 97 ≤ c.toNat ∧ c.toNat ≤ 102 then c.toNat - 87
  else 0

/-- Byte-wise inverse of `hex_encode`: pairs of hex digits back to bytes. -/
def hex_decode_chars : List Char → List Nat
  | c₁ :: c₂ :: rest => (16 * hexVal c₁ + hexVal c₂) :: hex_decode_chars rest
  | _ => []

/-! ## Console-redirect authenticator (console_redirect.rs lines 55-186) -/

/-- `hello_message` (console_redirect.rs lines 55-65): the `format!`/`concat!`
of the greeting pieces around the redirect URI and session id. -/
def hello_message (redirect_uri session_id : String) : String :=
  "Welcome to Neon!\n" ++ "Authenticate by visiting:\n" ++ "    "
    ++ redirect_uri ++ session_id ++ "\n\n"

/-- Boolean prefix test on character lists. -/
def listIsPrefixOf : List Char → List Char → Bool
  | [], _ => true
  | _ :: _, [] => false
  | a :: as, b :: bs => (a == b) && listIsPrefixOf as bs

/-- `str::contains` for a substring pattern (used for the `"--"` SNI check):
true iff the pattern occurs at some offset of the string. -/
def strContains (s pat : String) : Bool :=
  (List.range (s.length + 1)).any fun i => listIsPrefixOf pat.data (s.data.drop i)

/-- `tokio_postgres::config::SslMode` (the modes the embedded code uses;
`prefer` is the builder default). -/
inductive SslMode where
  | prefer
  | require
  | disable
deriving DecidableEq, Repr

/-- `compute::ConnCfg`, reduced to the builder fields the embedded code sets
(host, port, dbname, user, ssl_mode, password). -/
structure ConnCfg where
  host : String
  port : Nat
  dbname : String
  user : String
  ssl_mode : SslMode
  password : Option String
deriving DecidableEq, Repr

/-- `compute::ConnCfg::new()`: nothing set yet, ssl_mode at its default. -/
def ConnCfg.new : ConnCfg :=
  { host := "", port := 0, dbname := "", user := "",
    ssl_mode := .prefer, password := none }

/-- `DatabaseInfo` delivered by the control-plane callback (host, port,
dbname, user, optional password, optional allowed-IP list, opaque aux). -/
structure DatabaseInfo where
  host : String
  port : Nat
  dbname : String
  user : String
  password : Option String
  allowed_ips : Option (List IpAddr)
  aux : String
deriving DecidableEq, Repr

/-- `control_plane::provider::NodeInfo` (config + aux +
allow_self_signed_compute). -/
structure NodeInfo where
  config : ConnCfg
  aux : String
  allow_self_signed_compute : Bool
deriving DecidableEq, Repr

/-- The fields of `config::AuthenticationConfig` the embedded code reads.
The timeout duration is in milliseconds. -/
structure AuthenticationConfig where
  webauth_confirmation_timeout : Nat
  ip_allowlist_check_enabled : Bool
deriving DecidableEq, Repr

/-- Modelled from the spec: `auth::check_peer_addr_is_in_list` is outside
src/; per the spec it rejects "when the peer address is outside the list",
so it is modelled as membership of the peer address in the allowed list. -/
def check_peer_addr_is_in_list (peer_addr : IpAddr) (ips : List IpAddr) : Bool :=
  ips.contains peer_addr

/-- Postgres backend messages written by the embedded code
(`pq_proto::BeMessage`). -/
inductive BeMessage where
  | authenticationOk
  | parameterStatus (name value : String)
  | noticeResponse (msg : String)
deriving DecidableEq, Repr

/-- Modelled from the spec: `pq_proto`'s `BeMessage::CLIENT_ENCODING`
constant is `ParameterStatus(client_encoding=UTF8)`. -/
def CLIENT_ENCODING : BeMessage :=
  .parameterStatus "client_encoding" "UTF8"

/-- One observable action on the client stream: `write_message_noflush`
contributes a `msg`, `write_message` a `msg` followed by a `flush`. -/
inductive WriteEvent where
  | msg (m : BeMessage)
  | flush
deriving DecidableEq, Repr

/-- Outcome of `tokio::time::timeout(webauth_confirmation_timeout, waiter)`:
the deadline elapsed, the waiter failed, or the callback delivered a
`DatabaseInfo`. -/
inductive WaiterOutcome where
  | timedOut
  | failed (e : WaitError)
  | delivered (info : DatabaseInfo)
deriving DecidableEq, Repr

/-- Environment of one `authenticate` run (console_redirect.rs lines
104-186): the session id that won the registration loop of lines 114-121
(each candidate comes from `new_psql_session_id`), the awaited waiter's
outcome, and the peer address from the request context. -/
structure AuthEnv where
  psql_session_id : String
  waiter : WaiterOutcome
  peer_addr : IpAddr
deriving DecidableEq, Repr

/-- `authenticate` (console_redirect.rs lines 104-186) as a pure function
from its environment to the client-stream write trace and the result. -/
def authenticate (auth_config : AuthenticationConfig) (link_uri : String)
    (env : AuthEnv) : List WriteEvent × Except AuthError NodeInfo :=
  let greeting := hello_message link_uri env.psql_session_id
  let hello : List WriteEvent :=
    [.msg .authenticationOk, .msg CLIENT_ENCODING,
     .msg (.noticeResponse greeting), .flush]
  match env.waiter with
  | .timedOut =>
      (hello, .error (.confirmationTimeout auth_config.webauth_confirmation_timeout))
  | .failed e =>
      (hello, .error (.web (.waiterWait e)))
  | .delivered db_info =>
      let blocked :=
        auth_config.ip_allowlist_check_enabled &&
          match db_info.allowed_ips with
          | some allowed_ips =>
              !check_peer_addr_is_in_list env.peer_addr allowed_ips
          | none => false
      if blocked then
        (hello, .error (.ipAddressNotAllowed env.peer_addr))
      else
        let events := hello ++ [.msg (.noticeResponse "Connecting to database.")]
        let config : ConnCfg :=
          { ConnCfg.new with
            host := db_info.host, port := db_info.port,
            dbname := db_info.dbname, user := db_info.user }
        let config :=
          if strContains db_info.host "--" then
            { config with ssl_mode := .require }
          else
            { config with ssl_mode := .disable }
        let config :=
          match db_info.password with
          | some password => { config with password := some password }
          | none => config
        (events,
         .ok { config := config, aux := db_info.aux,
               allow_self_signed_compute := false })

/-! ## Pooling backend: password authentication
(serverless/backend.rs lines 50-110) -/

/-- `ComputeUserInfo`: endpoint id, user name, opaque options. -/
structure ComputeUserInfo where
  user : String
  endpoint : String
  options : String
deriving DecidableEq, Repr

/-- `ComputeCredentialKeys`: `None` or the keys produced by the SCRAM
exchange / token validation (opaque). -/
inductive ComputeCredentialKeys where
  | noKeys
  | keys (k : String)
deriving DecidableEq, Repr

/-- `ComputeCredentials`: post-auth pairing of identity and keys. -/
structure ComputeCredentials where
  info : ComputeUserInfo
  keys : ComputeCredentialKeys
deriving DecidableEq, Repr

/-- A cached role secret record: its `value` may still be absent. -/
structure CachedSecret where
  value : Option String
deriving DecidableEq, Repr

/-- `crate::sasl::Outcome` of `validate_password_and_exchange`. -/
inductive SaslOutcome where
  | success (key : ComputeCredentialKeys)
  | failure (reason : String)
deriving DecidableEq, Repr

/-- Observable external actions of `authenticate_with_password`, in program
order: the combined allowed-ips+cached-secret fetch, the peer-address
allow-list check, the per-endpoint rate-limiter token consumption (with its
key), the role-secret fetch, the per-endpoint auth-attempt rate limiter, and
the SCRAM exchange. -/
inductive AuthEvent where
  | getAllowedIpsAndSecret
  | ipAllowlistCheck (peer_addr : IpAddr)
  | endpointRateLimiterCheck (endpoint : String)
  | getRoleSecret
  | authRateLimitCheck
  | scramExchange
deriving DecidableEq, Repr

/-- Environment of one `authenticate_with_password` run: outcomes of its
external calls. `endpoint_rate_limiter_ok` is the result of
`endpoint_rate_limiter.check(endpoint, 1)`; `auth_rate_limit_ok` the result
of `authentication_config.check_rate_limit`; `scram` the result of
`validate_password_and_exchange` (which can itself fail). -/
structure PasswordAuthEnv where
  peer_addr : IpAddr
  allowed_ips_and_secret :
    Except GetAuthInfoError (List IpAddr × Option CachedSecret)
  endpoint_rate_limiter_ok : Bool
  role_secret : Except GetAuthInfoError CachedSecret
  auth_rate_limit_ok : Bool
  scram : Except AuthError SaslOutcome
deriving Repr

/-- `PoolingBackend::authenticate_with_password` (serverless/backend.rs lines
50-110) as a pure function from its environment to the event trace and the
result. -/
def authenticate_with_password (cfg : AuthenticationConfig)
    (user_info : ComputeUserInfo) (env : PasswordAuthEnv) :
    List AuthEvent × Except AuthError ComputeCredentials :=
  match env.allowed_ips_and_secret with
  | .error e => ([.getAllowedIpsAndSecret], .error (.getAuthInfo e))
  | .ok (allowed_ips, maybe_secret) =>
      let tr₁ := [AuthEvent.getAllowedIpsAndSecret] ++
        if cfg.ip_allowlist_check_enabled then
          [AuthEvent.ipAllowlistCheck env.peer_addr]
        else []
      if cfg.ip_allowlist_check_enabled &&
         !check_peer_addr_is_in_list env.peer_addr allowed_ips then
        (tr₁, .error (.ipAddressNotAllowed env.peer_addr))
      else
        let tr₂ := tr₁ ++ [AuthEvent.endpointRateLimiterCheck user_info.endpoint]
        if !env.endpoint_rate_limiter_ok then
          (tr₂, .error .tooManyConnections)
        else
          -- `match maybe_secret { Some => cached, None => get_role_secret? }`
          let afterSecret : List AuthEvent → CachedSecret →
              List AuthEvent × Except AuthError ComputeCredentials :=
            fun tr cached_secret =>
              match cached_secret.value with
              | none => (tr, .error (.authFailed user_info.user))
              | some _secret =>
                  let tr := tr ++ [AuthEvent.authRateLimitCheck]
                  if !env.auth_rate_limit_ok then
                    (tr, .error .rateLimitBackoff)
                  else
                    let tr := tr ++ [AuthEvent.scramExchange]
                    match env.scram with
                    | .error e => (tr, .error e)
                    | .ok (.success key) =>
                        (tr, .ok { info := user_info, keys := key })
                    | .ok (.failure _reason) =>
                        (tr, .error (.authFailed user_info.user))
          match maybe_secret with
          | some cached_secret => afterSecret tr₂ cached_secret
          | none =>
              let tr₃ := tr₂ ++ [AuthEvent.getRoleSecret]
              match env.role_secret with
              | .error e => (tr₃, .error (.getAuthInfo e))
              | .ok cached_secret => afterSecret tr₃ cached_secret

/-! ## Pooling backend: connect_to_compute
(serverless/backend.rs lines 165-201) -/

/-- A client returned by `connect_to_compute`, tagged by where it came from:
an idle pool entry or a fresh connection made by the connect mechanism. -/
inductive HttpClient where
  | fromPool (id : String)
  | fromConnect (id : String)
deriving DecidableEq, Repr

/-- Observable external actions of `connect_to_compute`: the pool lookup and
the invocation of the connect mechanism (via the retry/wake controller). -/
inductive ConnectEvent where
  | poolGet
  | mechanismConnect
deriving DecidableEq, Repr

/-- Environment of one `connect_to_compute` run: result of `pool.get`
(consulted only when the pool is enabled) and result of the
`connect_to_compute` retry/wake controller driving `TokioMechanism`
(which always yields a freshly established connection). -/
structure ConnectEnv where
  pool_get : Except HttpConnError (Option String)
  connect_mechanism : Except HttpConnError String
deriving Repr

/-- `PoolingBackend::connect_to_compute` (serverless/backend.rs lines
165-201) as a pure function from its environment to the event trace and the
result. -/
def connect_to_compute (env : ConnectEnv) (force_new : Bool) :
    List ConnectEvent × Except HttpConnError HttpClient :=
  let maybe_client : List ConnectEvent × Except HttpConnError (Option String) :=
    if force_new then ([], .ok none)
    else ([.poolGet], env.pool_get)
  match maybe_client with
  | (tr, .error e) => (tr, .error e)
  | (tr, .ok (some client)) => (tr, .ok (.fromPool client))
  | (tr, .ok none) =>
      (tr ++ [.mechanismConnect],
       match env.connect_mechanism with
       | .error e => .error e
       | .ok c => .ok (.fromConnect c))

/-! ## Pooling backend: connect_to_local_postgres
(serverless/backend.rs lines 250-311) -/

/-- `auth::Backend`: the control-plane variant or the local variant carrying
its fixed `node_info`. -/
inductive AuthBackend where
  | controlPlane
  | localBackend (node_info : NodeInfo)
deriving DecidableEq, Repr

/-- `ConnInfo`: pool lookup key (user identity plus target dbname). -/
structure ConnInfo where
  user_info : ComputeUserInfo
  dbname : String
deriving DecidableEq, Repr

/-- Result of a function that may also abort the process: `panicked` embeds
`unreachable!` / `panic!` with its message. -/
inductive RunOutcome (ε α : Type) where
  | ok (a : α)
  | err (e : ε)
  | panicked (msg : String)
deriving DecidableEq, Repr

/-- Observable external actions of `connect_to_local_postgres`: the local
pool lookup, the postgres connection attempt, and the `auth.init` query. -/
inductive LocalPgEvent where
  | poolGet
  | connectAttempt
  | authInitQuery
deriving DecidableEq, Repr

/-- Environment of one `connect_to_local_postgres` run: the local pool
lookup result, the result of `config.connect` (process id of the new
backend on success), and the result of the `select auth.init($1, $2)`
query. -/
structure LocalPgEnv where
  pool_get : Except HttpConnError (Option String)
  connect : Except TokioPostgresError Nat
  auth_init_query : Except TokioPostgresError Unit
deriving Repr

/-- `PoolingBackend::connect_to_local_postgres` (serverless/backend.rs lines
250-311) as a pure function from the auth-backend variant and its
environment to the event trace and the outcome. On a pool miss with the
control-plane backend it hits `unreachable!` (line 265). -/
def connect_to_local_postgres (auth_backend : AuthBackend)
    (conn_info : ConnInfo) (env : LocalPgEnv) :
    List LocalPgEvent × RunOutcome HttpConnError String :=
  match env.pool_get with
  | .error e => ([.poolGet], .err e)
  | .ok (some client) => ([.poolGet], .ok client)
  | .ok none =>
      match auth_backend with
      | .controlPlane =>
          ([.poolGet], .panicked "only local_proxy can connect to local postgres")
      | .localBackend node_info =>
          let _config := { node_info.config with
                           user := conn_info.user_info.user,
                           dbname := conn_info.dbname }
          match env.connect with
          | .error e =>
              ([.poolGet, .connectAttempt], .err (.postgresConnectionError e))
          | .ok pid =>
              match env.auth_init_query with
              | .error e =>
                  ([.poolGet, .connectAttempt, .authInitQuery],
                   .err (.postgresConnectionError e))
              | .ok _ =>
                  ([.poolGet, .connectAttempt, .authInitQuery],
                   .ok (toString pid))

/-! ## HTTP/2 connect path (serverless/backend.rs lines 531-580) -/

/-- A resolved socket address. -/
abbrev SocketAddr := String

/-- Outcome of `tokio::time::timeout(timeout, TcpStream::connect(addr))`,
plus (on success within the deadline) the result of the subsequent
`set_nodelay(true)` call. -/
inductive TcpAttempt where
  | ok (nodelay : Except IoError Unit)
  | err (e : IoError)
  | timedOut
deriving Repr

/-- Did the TCP connect itself succeed within the per-attempt timeout? -/
def tcpConnected : TcpAttempt → Bool
  | .ok _ => true
  | _ => false

/-- The established HTTP/2 connection: the address that won, whether Nagle
was disabled on its stream, and the handshake's keep-alive parameters. -/
structure Http2Connection where
  addr : SocketAddr
  nodelay : Bool
  keep_alive_interval_secs : Nat
  keep_alive_while_idle : Bool
  keep_alive_timeout_secs : Nat
deriving DecidableEq, Repr

/-- The address-iteration loop of `connect_http2` (serverless/backend.rs
lines 542-569): try each resolved address in order; a connect success breaks
with a stream after `set_nodelay(true)` (whose failure aborts the whole
call); a connect failure or per-attempt timeout records a last error and
continues; an exhausted iterator surfaces the last error, or InvalidInput
when nothing resolved. -/
def connect_http2_loop (attempt : SocketAddr → TcpAttempt) :
    List SocketAddr → Option LocalProxyConnError →
    Except LocalProxyConnError SocketAddr
  | [], last_err =>
      .error (last_err.getD (.io ⟨.invalidInput, "could not resolve any addresses"⟩))
  | addr :: addrs, _last_err =>
      match attempt addr with
      | .ok (.ok _) => .ok addr
      | .ok (.error e) => .error (.io e)
      | .err e => connect_http2_loop attempt addrs (some (.io e))
      | .timedOut =>
          connect_http2_loop attempt addrs
            (some (.io ⟨.timedOut, "deadline has elapsed"⟩))

/-- `connect_http2` (serverless/backend.rs lines 531-580) as a pure function.
`resolve` is the outcome of `lookup_host((host, port))`, `attempt` gives each
address's TCP outcome, `handshake` the h2 handshake outcome. The handshake
builder sets keep-alive interval 20 s, keep-alive-while-idle, and keep-alive
timeout 5 s (lines 571-577). -/
def connect_http2 (resolve : Except IoError (List SocketAddr))
    (attempt : SocketAddr → TcpAttempt)
    (handshake : Except HyperError Unit) :
    Except LocalProxyConnError Http2Connection :=
  match resolve with
  | .error e => .error (.io e)
  | .ok addrs =>
      match connect_http2_loop attempt addrs none with
      | .error e => .error e
      | .ok addr =>
          match handshake with
          | .error e => .error (.h2 e)
          | .ok _ =>
              .ok { addr := addr, nodelay := true,
                    keep_alive_interval_secs := 20,
                    keep_alive_while_idle := true,
                    keep_alive_timeout_secs := 5 }

/-! Helper lemmas for the hex minter. -/

/-- Each nibble below 16 renders as a lowercase hex digit whose value decodes
back to the nibble. -/
theorem hexDigit_spec : ∀ n < 16,
    isLowerHexDigit (hexDigit n) = true ∧ hexVal (hexDigit n) = n := by decide

/-- Bytes below 256 produce two hex digits under `hexEncodeByte`. -/
theorem hexEncodeByte_hex (b : Nat) (hb : b < 256) :
    ∀ c ∈ hexEncodeByte b, isLowerHexDigit c = true := by
  intro c hc
  have hdiv : b / 16 < 16 := Nat.div_lt_of_lt_mul (by omega)
  have hmod : b % 16 < 16 := Nat.mod_lt _ (by omega)
  simp only [hexEncodeByte, List.mem_cons, List.not_mem_nil, or_false] at hc
  rcases hc with rfl | rfl
  · exact (hexDigit_spec _ hdiv).1
  · exact (hexDigit_spec _ hmod).1

/-- Decoding inverts `hexEncodeByte` on the prefix of a digit stream. -/
theorem hex_decode_chars_encodeByte (b : Nat) (hb : b < 256) (rest : List Char) :
    hex_decode_chars (hexEncodeByte b ++ rest) = b :: hex_decode_chars rest := by
  have hdiv : b / 16 < 16 := Nat.div_lt_of_lt_mul (by omega)
  have hmod : b % 16 < 16 := Nat.mod_lt _ (by omega)
  show (16 * hexVal (hexDigit (b / 16)) + hexVal (hexDigit (b % 16)))
      :: hex_decode_chars rest = b :: hex_decode_chars rest
  rw [(hexDigit_spec _ hdiv).2, (hexDigit_spec _ hmod).2, Nat.div_add_mod]

/-- The character data of `hex_encode` is the flattened per-byte encoding. -/
theorem hex_encode_data (bytes : List Nat) :
    (hex_encode bytes).data = (bytes.map hexEncodeByte).flatten := rfl

/-- C4 (minter output shape): for every call on 8 random bytes, the minted
session id has length exactly 16, every character is a lowercase hex digit,
and the string is a hex encoding of exactly those 8 bytes (decoding it
recovers them). -/
theorem new_psql_session_id_spec (randomBytes : List Nat)
    (hlen : randomBytes.length = 8) (hval : ∀ b ∈ randomBytes, b < 256) :
    (new_psql_session_id randomBytes).length = 16 ∧
    (∀ c ∈ (new_psql_session_id randomBytes).data, isLowerHexDigit c = true) ∧
    hex_decode_chars (new_psql_session_id randomBytes).data = randomBytes := by
  have key : ∀ bytes : List Nat, (∀ b ∈ bytes, b < 256) →
      ((hex_encode bytes).data.length = 2 * bytes.length ∧
       (∀ c ∈ (hex_encode bytes).data, isLowerHexDigit c = true) ∧
       hex_decode_chars (hex_encode bytes).data = bytes) := by
    intro bytes hb
    induction bytes with
    | nil =>
        refine ⟨rfl, ?_, rfl⟩
        intro c hc
        exact absurd hc (by rw [hex_encode_data]; simp)
    | cons b rest ih =>
        have hbb : b < 256 := hb b (List.mem_cons_self b rest)
        have hrest : ∀ x ∈ rest, x < 256 := fun x hx => hb x (List.mem_cons_of_mem b hx)
        obtain ⟨ihlen, ihhex, ihdec⟩ := ih hrest
        rw [hex_encode_data] at ihlen ihhex ihdec ⊢
        simp only [List.map_cons, List.flatten_cons]
        refine ⟨?_, ?_, ?_⟩
        · simp only [List.length_append, ihlen, List.length_cons]
          show 2 + 2 * rest.length = 2 * (rest.length + 1)
          omega
        · intro c hc
          rcases List.mem_append.mp hc with hc | hc
          · exact hexEncodeByte_hex b hbb c hc
          · exact ihhex c hc
        · rw [hex_decode_chars_encodeByte b hbb, ihdec]
  obtain ⟨klen, khex, kdec⟩ := key randomBytes hval
  refine ⟨?_, khex, kdec⟩
  show (new_psql_session_id randomBytes).data.length = 16
  rw [show new_psql_session_id randomBytes = hex_encode randomBytes from rfl,
      klen, hlen]

/-- Witness for C4 at the concrete byte string 01:23:45:67:89:ab:cd:ef. -/
theorem new_psql_session_id_spec_witness :
    (new_psql_session_id [1, 35, 69, 103, 137, 171, 205, 239]).length = 16 ∧
    (∀ c ∈ (new_psql_session_id [1, 35, 69, 103, 137, 171, 205, 239]).data,
      isLowerHexDigit c = true) ∧
    hex_decode_chars (new_psql_session_id [1, 35, 69, 103, 137, 171, 205, 239]).data
      = [1, 35, 69, 103, 137, 171, 205, 239] :=
  new_psql_session_id_spec [1, 35, 69, 103, 137, 171, 205, 239]
    (by decide) (by decide)

/-! Theorems for the retry-predicate taxonomy of `HttpConnError`. -/

/-- C1 counterexample: the claim says `should_retry_wake_compute` is `false`
for `JwtPayloadError`, but the wildcard arm of the source impl
(serverless/backend.rs line 395) makes it `true`. -/
theorem jwtPayloadError_should_retry_wake_compute_true :
    (HttpConnError.jwtPayloadError ⟨"bad json"⟩).should_retry_wake_compute = true ∧
    (HttpConnError.authError (.authFailed "user")).should_retry_wake_compute = true ∧
    (HttpConnError.wakeCompute (.other "boom")).should_retry_wake_compute = true := by
  exact ⟨rfl, rfl, rfl⟩

/-- C1 (amended): `could_retry` and `should_retry_wake_compute` are
deterministic functions of the `HttpConnError` variant; `could_retry` is
`false` everywhere except the two delegating variants (whose payload value
it returns, and the local-proxy payload's own impl is constantly `false`);
`should_retry_wake_compute` delegates for `PostgresConnectionError`, is
`false` for `TooManyConnectionAttempts`, and is `true` for every other
variant — in particular `true` (not `false`) for `JwtPayloadError`,
`AuthError`, and `WakeCompute`. -/
theorem http_conn_error_retry_predicates :
    (∀ e, (HttpConnError.connectionClosedAbruptly e).could_retry = false ∧
          (HttpConnError.connectionClosedAbruptly e).should_retry_wake_compute = true) ∧
    (∀ e, (HttpConnError.postgresConnectionError e).could_retry = e.couldRetryVal ∧
          (HttpConnError.postgresConnectionError e).should_retry_wake_compute
            = e.shouldRetryWakeComputeVal) ∧
    (∀ e, (HttpConnError.localProxyConnectionError e).could_retry = false ∧
          (HttpConnError.localProxyConnectionError e).should_retry_wake_compute = true) ∧
    (∀ e, (HttpConnError.jwtPayloadError e).could_retry = false ∧
          (HttpConnError.jwtPayloadError e).should_retry_wake_compute = true) ∧
    (∀ e, (HttpConnError.getAuthInfo e).could_retry = false ∧
          (HttpConnError.getAuthInfo e).should_retry_wake_compute = true) ∧
    (∀ e, (HttpConnError.authError e).could_retry = false ∧
          (HttpConnError.authError e).should_retry_wake_compute = true) ∧
    (∀ e, (HttpConnError.wakeCompute e).could_retry = false ∧
          (HttpConnError.wakeCompute e).should_retry_wake_compute = true) ∧
    (∀ e, (HttpConnError.tooManyConnectionAttempts e).could_retry = false ∧
          (HttpConnError.tooManyConnectionAttempts e).should_retry_wake_compute = false) := by
  refine ⟨fun e => ⟨rfl, rfl⟩, fun e => ⟨rfl, rfl⟩, fun e => ⟨?_, rfl⟩,
          fun e => ⟨rfl, rfl⟩, fun e => ⟨rfl, rfl⟩, fun e => ⟨rfl, rfl⟩,
          fun e => ⟨rfl, rfl⟩, fun e => ⟨rfl, rfl⟩⟩
  cases e <;> rfl

/-! Theorems for the console-redirect authenticator. -/

/-- C2: every successful console-redirect authentication writes exactly
`AuthenticationOk`, `ParameterStatus(client_encoding=UTF8)` and
`NoticeResponse(greeting)` — the first two unflushed, a flush after the
third — and later `NoticeResponse("Connecting to database.")`, where the
greeting is literally `"Welcome to Neon!\nAuthenticate by visiting:\n    "`
followed by the redirect URI immediately followed by the session id and
`"\n\n"`. -/
theorem authenticate_success_trace (auth_config : AuthenticationConfig)
    (link_uri : String) (env : AuthEnv) (node_info : NodeInfo)
    (h : (authenticate auth_config link_uri env).2 = .ok node_info) :
    (authenticate auth_config link_uri env).1 =
      [.msg .authenticationOk,
       .msg (.parameterStatus "client_encoding" "UTF8"),
       .msg (.noticeResponse
         ("Welcome to Neon!\nAuthenticate by visiting:\n    "
           ++ link_uri ++ env.psql_session_id ++ "\n\n")),
       .flush,
       .msg (.noticeResponse "Connecting to database.")] := by
  cases hw : env.waiter with
  | timedOut => simp [authenticate, hw] at h
  | failed e => simp [authenticate, hw] at h
  | delivered db_info =>
      simp only [authenticate, hw] at h ⊢
      split at h
      · simp at h
      · rename_i hcond
        rw [if_neg hcond]
        rfl

/-- C3: for every delivered `DatabaseInfo` that authenticates successfully,
the backend config's ssl_mode is `Require` iff the host contains the
substring `"--"`, and `Disable` otherwise. -/
theorem authenticate_ssl_mode (auth_config : AuthenticationConfig)
    (link_uri : String) (env : AuthEnv) (db_info : DatabaseInfo)
    (node_info : NodeInfo)
    (hw : env.waiter = .delivered db_info)
    (h : (authenticate auth_config link_uri env).2 = .ok node_info) :
    (node_info.config.ssl_mode = .require ↔ strContains db_info.host "--" = true) ∧
    (strContains db_info.host "--" = false → node_info.config.ssl_mode = .disable) := by
  simp only [authenticate, hw] at h
  split at h
  · simp at h
  · injection h with h
    subst h
    cases hp : db_info.password <;> cases hc : strContains db_info.host "--" <;>
      simp [hp, hc]

/-- C5: if the confirmation deadline elapses first, `authenticate` fails with
`ConfirmationTimeout` carrying `webauth_confirmation_timeout` and the trace
stops at the flushed greeting (no further bytes); if the waiter itself fails,
the error is the wrapped `WaiterWait`, whose reportable kind is `Service`. -/
theorem authenticate_timeout_and_wait_failure (auth_config : AuthenticationConfig)
    (link_uri : String) (env : AuthEnv) :
    (env.waiter = .timedOut →
      authenticate auth_config link_uri env =
        ([.msg .authenticationOk, .msg CLIENT_ENCODING,
          .msg (.noticeResponse (hello_message link_uri env.psql_session_id)),
          .flush],
         .error (.confirmationTimeout auth_config.webauth_confirmation_timeout))) ∧
    (∀ e, env.waiter = .failed e →
      (authenticate auth_config link_uri env).2 = .error (.web (.waiterWait e)) ∧
      (WebAuthError.waiterWait e).get_error_kind = .service) := by
  constructor
  · intro hw
    simp [authenticate, hw]
  · intro e hw
    exact ⟨by simp [authenticate, hw], rfl⟩

/-- C6: with the IP-allowlist check enabled, an allowed-IP list present, and
the peer outside it, `authenticate` fails with `IpAddressNotAllowed(peer)`;
the trace stops at the flushed greeting (no "Connecting to database."
notice) and no `NodeInfo` is produced. -/
theorem authenticate_ip_not_allowed (auth_config : AuthenticationConfig)
    (link_uri : String) (env : AuthEnv) (db_info : DatabaseInfo)
    (allowed_ips : List IpAddr)
    (hw : env.waiter = .delivered db_info)
    (hen : auth_config.ip_allowlist_check_enabled = true)
    (hips : db_info.allowed_ips = some allowed_ips)
    (hnot : check_peer_addr_is_in_list env.peer_addr allowed_ips = false) :
    authenticate auth_config link_uri env =
      ([.msg .authenticationOk, .msg CLIENT_ENCODING,
        .msg (.noticeResponse (hello_message link_uri env.psql_session_id)),
        .flush],
       .error (.ipAddressNotAllowed env.peer_addr)) := by
  simp [authenticate, hw, hen, hips, hnot]

/-! Concrete fixtures for the authenticator witnesses (scenario 1 of §8 of
the spec: SNI host `h--1.db`, and variants). -/

/-- Fixture: auth config with a 100 ms confirmation timeout and the
allow-list check enabled. -/
def exCfg : AuthenticationConfig :=
  { webauth_confirmation_timeout := 100, ip_allowlist_check_enabled := true }

/-- Fixture: callback payload with an SNI-routed host. -/
def exDbInfoSni : DatabaseInfo :=
  { host := "h--1.db", port := 5432, dbname := "d", user := "u",
    password := none, allowed_ips := none, aux := "ep-1" }

/-- Fixture: environment whose waiter delivers `exDbInfoSni`. -/
def exEnvDelivered : AuthEnv :=
  { psql_session_id := "0123456789abcdef", waiter := .delivered exDbInfoSni,
    peer_addr := "192.0.2.5" }

/-- Fixture: the node info `authenticate` produces for `exDbInfoSni`. -/
def exNodeInfoSni : NodeInfo :=
  { config := { host := "h--1.db", port := 5432, dbname := "d", user := "u",
                ssl_mode := .require, password := none },
    aux := "ep-1", allow_self_signed_compute := false }

/-- Fixture: environment whose waiter times out. -/
def exEnvTimeout : AuthEnv :=
  { psql_session_id := "0123456789abcdef", waiter := .timedOut,
    peer_addr := "192.0.2.5" }

/-- Fixture: environment whose waiter fails. -/
def exEnvWaitFailed : AuthEnv :=
  { psql_session_id := "0123456789abcdef",
    waiter := .failed ⟨"callback dropped"⟩, peer_addr := "192.0.2.5" }

/-- Fixture: callback payload with an allowed-IP list not containing the
peer `192.0.2.5` (scenario 4 of §8). -/
def exDbInfoAllowed : DatabaseInfo :=
  { host := "plain.db", port := 5432, dbname := "d", user := "u",
    password := none, allowed_ips := some ["10.0.0.0/8"], aux := "ep-1" }

/-- Fixture: environment whose waiter delivers `exDbInfoAllowed` to a peer
outside the list. -/
def exEnvBlocked : AuthEnv :=
  { psql_session_id := "0123456789abcdef",
    waiter := .delivered exDbInfoAllowed, peer_addr := "192.0.2.5" }

/-- Witness for C2 at the scenario-1 fixture. -/
theorem authenticate_success_trace_witness :
    (authenticate exCfg "https://c.example/psql_session/" exEnvDelivered).1 =
      [.msg .authenticationOk,
       .msg (.parameterStatus "client_encoding" "UTF8"),
       .msg (.noticeResponse
         ("Welcome to Neon!\nAuthenticate by visiting:\n    "
           ++ "https://c.example/psql_session/"
           ++ exEnvDelivered.psql_session_id ++ "\n\n")),
       .flush,
       .msg (.noticeResponse "Connecting to database.")] :=
  authenticate_success_trace exCfg "https://c.example/psql_session/"
    exEnvDelivered exNodeInfoSni rfl

/-- Witness for C3 at the scenario-1 fixture. -/
theorem authenticate_ssl_mode_witness :
    (exNodeInfoSni.config.ssl_mode = .require ↔
      strContains exDbInfoSni.host "--" = true) ∧
    (strContains exDbInfoSni.host "--" = false →
      exNodeInfoSni.config.ssl_mode = .disable) :=
  authenticate_ssl_mode exCfg "https://c.example/psql_session/"
    exEnvDelivered exDbInfoSni exNodeInfoSni rfl rfl

/-- Witness for C5 at the timeout and wait-failure fixtures. -/
theorem authenticate_timeout_and_wait_failure_witness :
    (authenticate exCfg "https://c.example/psql_session/" exEnvTimeout =
      ([.msg .authenticationOk, .msg CLIENT_ENCODING,
        .msg (.noticeResponse
          (hello_message "https://c.example/psql_session/"
            exEnvTimeout.psql_session_id)),
        .flush],
       .error (.confirmationTimeout exCfg.webauth_confirmation_timeout))) ∧
    ((authenticate exCfg "https://c.example/psql_session/" exEnvWaitFailed).2 =
       .error (.web (.waiterWait ⟨"callback dropped"⟩)) ∧
     (WebAuthError.waiterWait ⟨"callback dropped"⟩).get_error_kind = .service) :=
  ⟨(authenticate_timeout_and_wait_failure exCfg
      "https://c.example/psql_session/" exEnvTimeout).1 rfl,
   (authenticate_timeout_and_wait_failure exCfg
      "https://c.example/psql_session/" exEnvWaitFailed).2
     ⟨"callback dropped"⟩ rfl⟩

/-- Witness for C6 at the scenario-4 fixture. -/
theorem authenticate_ip_not_allowed_witness :
    authenticate exCfg "https://c.example/psql_session/" exEnvBlocked =
      ([.msg .authenticationOk, .msg CLIENT_ENCODING,
        .msg (.noticeResponse
          (hello_message "https://c.example/psql_session/"
            exEnvBlocked.psql_session_id)),
        .flush],
       .error (.ipAddressNotAllowed exEnvBlocked.peer_addr)) :=
  authenticate_ip_not_allowed exCfg "https://c.example/psql_session/"
    exEnvBlocked exDbInfoAllowed ["10.0.0.0/8"] rfl rfl rfl rfl

/-! Theorems for the pooling backend. -/

/-- C7: in `authenticate_with_password`, once the IP-allowlist check passes,
one token is consumed from the per-endpoint rate limiter keyed by the
endpoint id, and exhaustion yields `TooManyConnections` with a trace ending
at that check — so before any role-secret fetch or SCRAM exchange; and if
the secret was not cached and the fetched role secret is still absent, the
result is `AuthFailed(user)`. -/
theorem authenticate_with_password_rate_limit_and_missing_secret
    (cfg : AuthenticationConfig) (user_info : ComputeUserInfo)
    (env : PasswordAuthEnv) (allowed_ips : List IpAddr)
    (maybe_secret : Option CachedSecret)
    (hai : env.allowed_ips_and_secret = .ok (allowed_ips, maybe_secret))
    (hip : cfg.ip_allowlist_check_enabled = true →
           check_peer_addr_is_in_list env.peer_addr allowed_ips = true) :
    (env.endpoint_rate_limiter_ok = false →
       authenticate_with_password cfg user_info env =
         ([AuthEvent.getAllowedIpsAndSecret] ++
            (if cfg.ip_allowlist_check_enabled then
               [AuthEvent.ipAllowlistCheck env.peer_addr] else []) ++
            [AuthEvent.endpointRateLimiterCheck user_info.endpoint],
          .error .tooManyConnections)) ∧
    (∀ cached_secret,
       env.endpoint_rate_limiter_ok = true →
       maybe_secret = none →
       env.role_secret = .ok cached_secret →
       cached_secret.value = none →
       (authenticate_with_password cfg user_info env).2 =
         .error (.authFailed user_info.user)) := by
  have hnb : (cfg.ip_allowlist_check_enabled &&
      !check_peer_addr_is_in_list env.peer_addr allowed_ips) = false := by
    cases hen : cfg.ip_allowlist_check_enabled
    · simp
    · simp [hip hen]
  constructor
  · intro hrl
    simp [authenticate_with_password, hai, hnb, hrl]
  · intro cached_secret hrl hms hrs hval
    simp [authenticate_with_password, hai, hnb, hrl, hms, hrs, hval]

/-- Fixture: pre-auth identity for the pooling-backend runs. -/
def exUserInfo : ComputeUserInfo :=
  { user := "u", endpoint := "ep-1", options := "" }

/-- Fixture: password-auth environment whose endpoint rate limiter is
exhausted. -/
def exPwEnvRateLimited : PasswordAuthEnv :=
  { peer_addr := "10.0.0.1",
    allowed_ips_and_secret := .ok (["10.0.0.1"], none),
    endpoint_rate_limiter_ok := false,
    role_secret := .ok ⟨none⟩,
    auth_rate_limit_ok := true,
    scram := .ok (.failure "wrong password") }

/-- Fixture: password-auth environment where the role secret is absent even
after the fetch. -/
def exPwEnvNoSecret : PasswordAuthEnv :=
  { peer_addr := "10.0.0.1",
    allowed_ips_and_secret := .ok (["10.0.0.1"], none),
    endpoint_rate_limiter_ok := true,
    role_secret := .ok ⟨none⟩,
    auth_rate_limit_ok := true,
    scram := .ok (.failure "wrong password") }

/-- Witness for C7 at the rate-limited and missing-secret fixtures. -/
theorem authenticate_with_password_witness :
    (authenticate_with_password exCfg exUserInfo exPwEnvRateLimited =
       ([AuthEvent.getAllowedIpsAndSecret] ++
          (if exCfg.ip_allowlist_check_enabled then
             [AuthEvent.ipAllowlistCheck exPwEnvRateLimited.peer_addr] else []) ++
          [AuthEvent.endpointRateLimiterCheck exUserInfo.endpoint],
        .error .tooManyConnections)) ∧
    ((authenticate_with_password exCfg exUserInfo exPwEnvNoSecret).2 =
       .error (.authFailed exUserInfo.user)) :=
  ⟨(authenticate_with_password_rate_limit_and_missing_secret exCfg exUserInfo
      exPwEnvRateLimited ["10.0.0.1"] none rfl (fun _ => rfl)).1 rfl,
   (authenticate_with_password_rate_limit_and_missing_secret exCfg exUserInfo
      exPwEnvNoSecret ["10.0.0.1"] none rfl (fun _ => rfl)).2
     ⟨none⟩ rfl rfl rfl rfl⟩

/-- C10: with `force_new = true`, `connect_to_compute` never consults the
pool and any success is the connect mechanism's fresh connection; with
`force_new = false`, a pool hit is returned as-is without invoking the
mechanism. -/
theorem connect_to_compute_pool_bypass (env : ConnectEnv) :
    (ConnectEvent.poolGet ∉ (connect_to_compute env true).1) ∧
    (∀ c, (connect_to_compute env true).2 = .ok c →
       ∃ id, env.connect_mechanism = .ok id ∧ c = .fromConnect id ∧
         ConnectEvent.mechanismConnect ∈ (connect_to_compute env true).1) ∧
    (∀ id, env.pool_get = .ok (some id) →
       connect_to_compute env false = ([.poolGet], .ok (.fromPool id))) := by
  refine ⟨?_, ?_, ?_⟩
  · cases hm : env.connect_mechanism <;> simp [connect_to_compute, hm]
  · intro c hc
    cases hm : env.connect_mechanism with
    | error e => simp [connect_to_compute, hm] at hc
    | ok id =>
        simp [connect_to_compute, hm] at hc
        exact ⟨id, rfl, hc.symm, by simp [connect_to_compute, hm]⟩
  · intro id hp
    simp [connect_to_compute, hp]

/-- Fixture: connect environment with both a pooled client and a fresh
connection available. -/
def exConnectEnv : ConnectEnv :=
  { pool_get := .ok (some "pooled-1"), connect_mechanism := .ok "fresh-1" }

/-- Witness for C10 at the fixture environment. -/
theorem connect_to_compute_pool_bypass_witness :
    (ConnectEvent.poolGet ∉ (connect_to_compute exConnectEnv true).1) ∧
    (∃ id, exConnectEnv.connect_mechanism = .ok id ∧
       HttpClient.fromConnect "fresh-1" = .fromConnect id ∧
       ConnectEvent.mechanismConnect ∈ (connect_to_compute exConnectEnv true).1) ∧
    (connect_to_compute exConnectEnv false =
       ([.poolGet], .ok (.fromPool "pooled-1"))) :=
  ⟨(connect_to_compute_pool_bypass exConnectEnv).1,
   (connect_to_compute_pool_bypass exConnectEnv).2.1
     (.fromConnect "fresh-1") rfl,
   (connect_to_compute_pool_bypass exConnectEnv).2.2 "pooled-1" rfl⟩

/-- C9: on a local-pool miss, `connect_to_local_postgres` panics (via
`unreachable!`) under the control-plane backend before any connection
attempt — its trace stops at the pool lookup — while under the local
backend the connection attempt is reached normally. -/
theorem connect_to_local_postgres_backend_guard (conn_info : ConnInfo)
    (env : LocalPgEnv) (hmiss : env.pool_get = .ok none) :
    (connect_to_local_postgres .controlPlane conn_info env =
       ([.poolGet], .panicked "only local_proxy can connect to local postgres")) ∧
    (∀ node_info,
       LocalPgEvent.connectAttempt ∈
         (connect_to_local_postgres (.localBackend node_info) conn_info env).1) := by
  constructor
  · simp [connect_to_local_postgres, hmiss]
  · intro node_info
    simp only [connect_to_local_postgres, hmiss]
    cases hc : env.connect with
    | error e => simp
    | ok pid => cases hq : env.auth_init_query <;> simp

/-- Fixture: pool key for the local-postgres runs. -/
def exConnInfo : ConnInfo := { user_info := exUserInfo, dbname := "d" }

/-- Fixture: local-postgres environment with a pool miss and a successful
connection and auth.init query. -/
def exLocalEnv : LocalPgEnv :=
  { pool_get := .ok none, connect := .ok 4242, auth_init_query := .ok () }

/-- Witness for C9 at the fixture environment. -/
theorem connect_to_local_postgres_backend_guard_witness :
    (connect_to_local_postgres .controlPlane exConnInfo exLocalEnv =
       ([.poolGet], .panicked "only local_proxy can connect to local postgres")) ∧
    (LocalPgEvent.connectAttempt ∈
       (connect_to_local_postgres (.localBackend exNodeInfoSni)
         exConnInfo exLocalEnv).1) :=
  ⟨(connect_to_local_postgres_backend_guard exConnInfo exLocalEnv rfl).1,
   (connect_to_local_postgres_backend_guard exConnInfo exLocalEnv rfl).2
     exNodeInfoSni⟩

/-- Helper for C8: if the address loop succeeds, the chosen address is the
first in the list whose TCP connect succeeded within the per-attempt
timeout, its `set_nodelay(true)` call succeeded, and every earlier address
was attempted and did not connect. -/
theorem connect_http2_loop_first_success (attempt : SocketAddr → TcpAttempt) :
    ∀ (addrs : List SocketAddr) (last_err : Option LocalProxyConnError)
      (a : SocketAddr),
      connect_http2_loop attempt addrs last_err = .ok a →
      ∃ (i : Nat) (hi : i < addrs.length),
        addrs.get ⟨i, hi⟩ = a ∧ attempt a = .ok (.ok ()) ∧
        ∀ (j : Nat) (hj : j < addrs.length), j < i →
          tcpConnected (attempt (addrs.get ⟨j, hj⟩)) = false := by
  intro addrs
  induction addrs with
  | nil =>
      intro last_err a h
      simp [connect_http2_loop] at h
  | cons addr rest ih =>
      intro last_err a h
      cases hA : attempt addr with
      | ok nd =>
          cases nd with
          | ok u =>
              cases u
              simp [connect_http2_loop, hA] at h
              subst h
              refine ⟨0, by simp, rfl, hA, ?_⟩
              intro j hj hj0
              omega
          | error e =>
              simp [connect_http2_loop, hA] at h
      | err e =>
          simp only [connect_http2_loop, hA] at h
          obtain ⟨i, hi, hget, hok, hprev⟩ := ih _ a h
          refine ⟨i + 1, by simpa using Nat.succ_lt_succ hi, by simpa using hget,
                  hok, ?_⟩
          intro j hj hji
          cases j with
          | zero => simp [tcpConnected, hA]
          | succ k =>
              have hk : k < rest.length := by simpa using Nat.lt_of_succ_lt_succ hj
              simpa using hprev k hk (Nat.lt_of_succ_lt_succ hji)
      | timedOut =>
          simp only [connect_http2_loop, hA] at h
          obtain ⟨i, hi, hget, hok, hprev⟩ := ih _ a h
          refine ⟨i + 1, by simpa using Nat.succ_lt_succ hi, by simpa using hget,
                  hok, ?_⟩
          intro j hj hji
          cases j with
          | zero => simp [tcpConnected, hA]
          | succ k =>
              have hk : k < rest.length := by simpa using Nat.lt_of_succ_lt_succ hj
              simpa using hprev k hk (Nat.lt_of_succ_lt_succ hji)

/-- C8: every successful `connect_http2` call used the first resolved
address that accepted a TCP connection within the per-attempt timeout
(earlier ones were tried and failed), disabled Nagle on that stream, and
performed an HTTP/2 handshake with keep-alive interval 20 s, keep-alive
timeout 5 s, and keep-alive-while-idle enabled. -/
theorem connect_http2_spec (resolve : Except IoError (List SocketAddr))
    (attempt : SocketAddr → TcpAttempt) (handshake : Except HyperError Unit)
    (addrs : List SocketAddr) (conn : Http2Connection)
    (hres : resolve = .ok addrs)
    (h : connect_http2 resolve attempt handshake = .ok conn) :
    conn.nodelay = true ∧
    conn.keep_alive_interval_secs = 20 ∧
    conn.keep_alive_timeout_secs = 5 ∧
    conn.keep_alive_while_idle = true ∧
    attempt conn.addr = .ok (.ok ()) ∧
    ∃ (i : Nat) (hi : i < addrs.length),
      addrs.get ⟨i, hi⟩ = conn.addr ∧
      ∀ (j : Nat) (hj : j < addrs.length), j < i →
        tcpConnected (attempt (addrs.get ⟨j, hj⟩)) = false := by
  subst hres
  simp only [connect_http2] at h
  cases hl : connect_http2_loop attempt addrs none with
  | error e => rw [hl] at h; simp at h
  | ok addr =>
      rw [hl] at h
      cases hh : handshake with
      | error e => rw [hh] at h; simp at h
      | ok u =>
          rw [hh] at h
          injection h with h
          subst h
          obtain ⟨i, hi, hget, hok, hprev⟩ :=
            connect_http2_loop_first_success attempt addrs none addr hl
          exact ⟨rfl, rfl, rfl, rfl, hok, i, hi, hget, hprev⟩

/-- Fixture: two resolved addresses, the first refusing and the second
accepting the TCP connection. -/
def exAttempt : SocketAddr → TcpAttempt :=
  fun a =>
    if a = "198.51.100.2:10432" then .ok (.ok ())
    else .err ⟨.other, "connection refused"⟩

/-- Fixture: the connection `connect_http2` builds at `exAttempt`. -/
def exConn : Http2Connection :=
  { addr := "198.51.100.2:10432", nodelay := true,
    keep_alive_interval_secs := 20, keep_alive_while_idle := true,
    keep_alive_timeout_secs := 5 }

/-- Witness for C8 at the two-address fixture. -/
theorem connect_http2_spec_witness :
    exConn.nodelay = true ∧
    exConn.keep_alive_interval_secs = 20 ∧
    exConn.keep_alive_timeout_secs = 5 ∧
    exConn.keep_alive_while_idle = true ∧
    exAttempt exConn.addr = .ok (.ok ()) ∧
    ∃ (i : Nat)
      (hi : i < ["198.51.100.1:10432", "198.51.100.2:10432"].length),
      ["198.51.100.1:10432", "198.51.100.2:10432"].get ⟨i, hi⟩ = exConn.addr ∧
      ∀ (j : Nat)
        (hj : j < ["198.51.100.1:10432", "198.51.100.2:10432"].length),
        j < i →
        tcpConnected
          (exAttempt (["198.51.100.1:10432", "198.51.100.2:10432"].get ⟨j, hj⟩))
          = false :=
  connect_http2_spec (.ok ["198.51.100.1:10432", "198.51.100.2:10432"])
    exAttempt (.ok ()) ["198.51.100.1:10432", "198.51.100.2:10432"]
    exConn rfl rfl

end Neon
